import Mathlib

/-!
Verification of the repository persistence layer of the bytebase code base
(file `backend/store/repository.go`).

The embedding models SQL rows as association lists from column names to
values, the `repo` table as a list of rows, and each store operation as a
pure function on that table.  Driver failures (query errors, transaction
begin/commit failures, a failing `RowsAffected` report) are explicit fault
parameters, so every error path of the Go code is a reachable branch of the
model.  The service-level wrappers additionally record a transcript of
transaction events (begin, commit, rollback) mirroring the Go control flow
with its deferred `tx.Rollback()`.
-/

namespace Bytebase

/-- A SQL value stored in the repo table: an integer or a text value. -/
inductive Value where
  | int (i : Int)
  | str (s : String)
deriving Repr, DecidableEq

/-- A stored row: an association list from column name to value. -/
abbrev Row := List (String × Value)

/-- Column lookup in a row. -/
def getCol : Row → String → Option Value
  | [], _ => none
  | (c, w) :: rest, c' => if c = c' then some w else getCol rest c'

/-- Column assignment in a row (no effect when the column is absent). -/
def setCol : Row → String → Value → Row
  | [], _, _ => []
  | (c, w) :: rest, c', v => if c = c' then (c, v) :: rest else (c, w) :: setCol rest c' v

/-- Entity `api.Repository`, fields in the order of the RETURNING column lists
of `repository.go`. -/
structure Repository where
  id : Int
  creatorId : Int
  createdTs : Int
  updaterId : Int
  updatedTs : Int
  vcsId : Int
  projectId : Int
  name : String
  fullPath : String
  webURL : String
  baseDirectory : String
  branchFilter : String
  externalId : String
  webhookId : String
deriving Repr, DecidableEq

/-- Request `api.RepositoryCreate` (fields as bound in `createRepository`). -/
structure RepositoryCreate where
  creatorId : Int
  vcsId : Int
  projectId : Int
  name : String
  fullPath : String
  webURL : String
  baseDirectory : String
  branchFilter : String
  externalId : String
  webhookId : String
deriving Repr, DecidableEq

/-- Predicate `api.RepositoryFind`: the only field `findRepositoryList` reads
is the optional ID. -/
structure RepositoryFind where
  id : Option Int
deriving Repr, DecidableEq

/-- Request `api.RepositoryPatch` (fields as read in `patchRepository`). -/
structure RepositoryPatch where
  id : Int
  updaterId : Int
  baseDirectory : Option String
  branchFilter : Option String
deriving Repr, DecidableEq

/-- Request `api.RepositoryDelete`. -/
structure RepositoryDelete where
  id : Int
deriving Repr, DecidableEq

/-- Error codes of the `bytebase.Error` type used by `repository.go`. -/
inductive ErrCode where
  | ENOTFOUND
  | ECONFLICT
  | EINTERNAL
deriving Repr, DecidableEq

/-- A storage-layer error: a typed `bytebase.Error`, a raw driver error, or an
error that has passed through the classification function. -/
inductive StoreErr where
  | bb (code : ErrCode) (msg : String)
  | driver (msg : String)
  | classified (e : StoreErr)
deriving Repr, DecidableEq

/-- Modelled from the spec: `FormatError` is the single error-classification
function of the store package (its body is not part of the excerpt): every
storage error is wrapped, at the boundary, into a domain error kind.  The
wrap is modelled as one `classified` layer, so the number of passes through
the classifier is countable on the resulting error value. -/
def FormatError (e : StoreErr) : StoreErr := .classified e

/-- Number of times an error has passed through `FormatError`. -/
def classifyCount : StoreErr → Nat
  | .classified e => classifyCount e + 1
  | _ => 0

/-- Whether an error is (a classification of) a not-found error. -/
def isNotFound : StoreErr → Bool
  | .bb .ENOTFOUND _ => true
  | .bb _ _ => false
  | .driver _ => false
  | .classified e => isNotFound e

/-- The RETURNING / SELECT column list shared by every statement in
`repository.go`. -/
def repoColumns : List String :=
  ["id", "creator_id", "created_ts", "updater_id", "updated_ts", "vcs_id", "project_id",
   "name", "full_path", "web_url", "base_directory", "branch_filter", "external_id",
   "webhook_id"]

/-- The stored row corresponding to an entity. -/
def repoRow (x : Repository) : Row :=
  [("id", .int x.id), ("creator_id", .int x.creatorId), ("created_ts", .int x.createdTs),
   ("updater_id", .int x.updaterId), ("updated_ts", .int x.updatedTs),
   ("vcs_id", .int x.vcsId), ("project_id", .int x.projectId), ("name", .str x.name),
   ("full_path", .str x.fullPath), ("web_url", .str x.webURL),
   ("base_directory", .str x.baseDirectory), ("branch_filter", .str x.branchFilter),
   ("external_id", .str x.externalId), ("webhook_id", .str x.webhookId)]

/-- Project the listed columns out of a row (the query-side column projection;
`none` when a column is missing). -/
def collectCols (r : Row) : List String → Option (List Value)
  | [] => some []
  | c :: cs =>
    match getCol r c, collectCols r cs with
    | some v, some vs => some (v :: vs)
    | _, _ => none

/-- The `row.Scan(...)` call: decode the 14 projected values, in RETURNING
order, into the entity; a shape or type mismatch is a driver error. -/
def scanRow : List Value → Except StoreErr Repository
  | [Value.int i, Value.int cr, Value.int cts, Value.int up, Value.int uts, Value.int vc,
     Value.int pj, Value.str nm, Value.str fp, Value.str wu, Value.str bd, Value.str bf,
     Value.str ex, Value.str wh] =>
      .ok ⟨i, cr, cts, up, uts, vc, pj, nm, fp, wu, bd, bf, ex, wh⟩
  | _ => .error (.driver "sql: Scan error: type mismatch")

/-- Project a row through the RETURNING column list and decode it. -/
def decodeRepoRow (r : Row) : Except StoreErr Repository :=
  match collectCols r repoColumns with
  | none => .error (.driver "sql: Scan error: missing column")
  | some vs => scanRow vs

/-- Column name of a clause fragment emitted by this module, i.e. the part of
`col = ?` before the placeholder. -/
def fragmentColumn (f : String) : String :=
  if f = "updater_id = ?" then "updater_id"
  else if f = "base_directory = ?" then "base_directory"
  else if f = "branch_filter = ?" then "branch_filter"
  else if f = "id = ?" then "id"
  else f

/-- Evaluate a conjunctive WHERE clause on a row, consuming one bound
parameter per placeholder fragment (`1 = 1` carries no placeholder). -/
def evalWhere (r : Row) : List String → List Value → Bool
  | [], _ => true
  | f :: fs, args =>
    if f = "1 = 1" then evalWhere r fs args
    else
      match args with
      | [] => false
      | v :: vs => if getCol r (fragmentColumn f) = some v then evalWhere r fs vs else false

/-- Apply a SET clause to a row, consuming one bound parameter per fragment. -/
def applySet : Row → List String → List Value → Row
  | r, [], _ => r
  | r, _ :: _, [] => r
  | r, f :: fs, v :: vs => applySet (setCol r (fragmentColumn f) v) fs vs

/-- WHERE-clause construction of `findRepositoryList` (lines 191-194): start
from the always-true clause and append one fragment and one bound parameter
when the optional ID predicate is present. -/
def buildFindWhere (find : RepositoryFind) : List String × List Value :=
  let w : List String × List Value := (["1 = 1"], [])
  match find.id with
  | some v => (w.1 ++ ["id = ?"], w.2 ++ [Value.int v])
  | none => w

/-- SET-clause construction of `patchRepository` (lines 256-262): start from
the unconditional updater assignment, then append `base_directory` and
`branch_filter` exactly when present, in that order. -/
def buildPatchSet (p : RepositoryPatch) : List String × List Value :=
  let s0 : List String × List Value := (["updater_id = ?"], [Value.int p.updaterId])
  let s1 : List String × List Value :=
    match p.baseDirectory with
    | some v => (s0.1 ++ ["base_directory = ?"], s0.2 ++ [Value.str v])
    | none => s0
  match p.branchFilter with
  | some v => (s1.1 ++ ["branch_filter = ?"], s1.2 ++ [Value.str v])
  | none => s1

/-- Execution of `UPDATE repo SET ... WHERE id = ? RETURNING ...`: the SET
fragments consume the leading bound parameters, the WHERE placeholder the
next one; returns the new table and the returned (updated) rows. -/
def sqlUpdateRepo (set : List String) (args : List Value) (tbl : List Row) :
    List Row × List Row :=
  let setArgs := args.take set.length
  let idVal := args.getD set.length (Value.int 0)
  (tbl.map (fun r => if getCol r "id" = some idVal then applySet r set setArgs else r),
   (tbl.filter (fun r => decide (getCol r "id" = some idVal))).map
     (fun r => applySet r set setArgs))

/-- Execution of `DELETE FROM repo WHERE id = ?`: the new table and the
number of rows affected. -/
def sqlDeleteRepo (i : Int) (tbl : List Row) : List Row × Nat :=
  (tbl.filter (fun r => !(decide (getCol r "id" = some (Value.int i)))),
   (tbl.filter (fun r => decide (getCol r "id" = some (Value.int i)))).length)

/-- Column list of the INSERT statement of `createRepository`. -/
def insertColumns : List String :=
  ["creator_id", "updater_id", "vcs_id", "project_id", "name", "full_path", "web_url",
   "base_directory", "branch_filter", "external_id", "webhook_id"]

/-- Bound parameters of the INSERT statement of `createRepository`, in source
order: the caller-supplied creator id is bound to both `creator_id` and
`updater_id`. -/
def createValuesArgs (c : RepositoryCreate) : List Value :=
  [Value.int c.creatorId, Value.int c.creatorId, Value.int c.vcsId, Value.int c.projectId,
   Value.str c.name, Value.str c.fullPath, Value.str c.webURL, Value.str c.baseDirectory,
   Value.str c.branchFilter, Value.str c.externalId, Value.str c.webhookId]

/-- Database state: the repo table plus the server-side id counter and clock. -/
structure DBState where
  table : List Row
  nextId : Int
  now : Int
deriving Repr, DecidableEq

/-- Execution of `INSERT INTO repo (...) VALUES (...)`.  Modelled from the
spec for the parts outside the excerpt (the table schema): the store assigns
the integer id and the created/updated timestamps on insert. -/
def sqlInsertRepo (cols : List String) (vals : List Value) (db : DBState) : Row × DBState :=
  let row : Row :=
    [("id", Value.int db.nextId), ("created_ts", Value.int db.now),
     ("updated_ts", Value.int db.now)] ++ cols.zip vals
  (row, { db with table := db.table ++ [row], nextId := db.nextId + 1 })

/-- Row consumption of `createRepository` (lines 165-184): the boolean result
of `row.Next()` is discarded, then `row.Scan` runs; on an empty row set the
scan fails with a driver error, which is classified and returned. -/
def createRepositoryScan (rows : List Row) : Except StoreErr Repository :=
  match rows with
  | [] => .error (FormatError (.driver "sql: Scan called without calling Next"))
  | r :: _ =>
    match decodeRepoRow r with
    | .error e => .error (FormatError e)
    | .ok x => .ok x

/-- Helper `createRepository` (lines 128-187): execute the INSERT with
RETURNING and decode the first returned row.  `qe` injects a query-execution
failure. -/
def createRepository (qe : Option String) (c : RepositoryCreate) (db : DBState) :
    Except StoreErr Repository × DBState :=
  match qe with
  | some m => (.error (FormatError (.driver m)), db)
  | none =>
    let rd := sqlInsertRepo insertColumns (createValuesArgs c) db
    (createRepositoryScan [rd.1], rd.2)

/-- Row loop of `findRepositoryList` (lines 222-245): scan each returned row,
classifying and returning the first scan error. -/
def scanAll : List Row → Except StoreErr (List Repository)
  | [] => .ok []
  | r :: rest =>
    match decodeRepoRow r with
    | .error e => .error (FormatError e)
    | .ok x =>
      match scanAll rest with
      | .error e => .error e
      | .ok xs => .ok (x :: xs)

/-- Helper `findRepositoryList` (lines 189-251): build the WHERE clause,
execute the SELECT and decode every matching row. -/
def findRepositoryList (qe : Option String) (find : RepositoryFind) (tbl : List Row) :
    Except StoreErr (List Repository) :=
  let wa := buildFindWhere find
  match qe with
  | some m => .error (FormatError (.driver m))
  | none => scanAll (tbl.filter (fun r => evalWhere r wa.1 wa.2))

/-- Helper `patchRepository` (lines 254-305): build the SET clause, append the
id as the final bound parameter, execute the UPDATE with RETURNING; zero
returned rows yield the ENOTFOUND error carrying the id, otherwise the first
returned row is decoded. -/
def patchRepository (qe : Option String) (p : RepositoryPatch) (tbl : List Row) :
    Except StoreErr Repository × List Row :=
  let sa := buildPatchSet p
  let args := sa.2 ++ [Value.int p.id]
  match qe with
  | some m => (.error (FormatError (.driver m)), tbl)
  | none =>
    let res := sqlUpdateRepo sa.1 args tbl
    match res.2 with
    | [] => (.error (.bb .ENOTFOUND ("repository ID not found: " ++ toString p.id)), res.1)
    | r :: _ =>
      match decodeRepoRow r with
      | .error e => (.error (FormatError e), res.1)
      | .ok x => (.ok x, res.1)

/-- Helper `deleteRepository` (lines 308-321): execute the DELETE, then read
the affected-row count, discarding the report error (`rows, _ :=`); a driver
whose `RowsAffected` fails returns a zero count alongside the error, so the
count is treated as zero in that case. -/
def deleteRepository (qe : Option String) (affectedErr : Bool) (d : RepositoryDelete)
    (tbl : List Row) : Except StoreErr Unit × List Row :=
  match qe with
  | some m => (.error (FormatError (.driver m)), tbl)
  | none =>
    let res := sqlDeleteRepo d.id tbl
    let rows := if affectedErr then 0 else res.2
    if rows = 0 then
      (.error (.bb .ENOTFOUND ("repository ID not found: " ++ toString d.id)), res.1)
    else
      (.ok (), res.1)

/-- Fault injection for one service call: transaction-begin failure, statement
execution failure, commit failure, and a failing `RowsAffected` report. -/
structure Faults where
  beginErr : Option String
  queryErr : Option String
  commitErr : Option String
  rowsAffectedErr : Bool
deriving Repr, DecidableEq

/-- The fault assignment of a normally behaving driver. -/
def noFaults : Faults := ⟨none, none, none, false⟩

/-- Transaction events recorded by a service call, in order. -/
inductive TxEvent where
  | begin
  | commit
  | rollback
deriving Repr, DecidableEq

/-- Service method `CreateRepository` (lines 29-46): begin, run the row
operation, commit; the deferred `tx.Rollback()` fires on every exit after a
successful begin.  The returned state is the committed one, or the original
state when the transaction was rolled back. -/
def CreateRepository (f : Faults) (c : RepositoryCreate) (db : DBState) :
    Except StoreErr Repository × DBState × List TxEvent :=
  match f.beginErr with
  | some m => (.error (FormatError (.driver m)), db, [])
  | none =>
    match createRepository f.queryErr c db with
    | (.error e, _) => (.error e, db, [.begin, .rollback])
    | (.ok x, db') =>
      match f.commitErr with
      | some m => (.error (FormatError (.driver m)), db, [.begin, .commit, .rollback])
      | none => (.ok x, db', [.begin, .commit, .rollback])

/-- Service method `FindRepositoryList` (lines 49-62): begin, run the list
query, return; the Go method never commits (read only), so the deferred
rollback always closes the transaction. -/
def FindRepositoryList (f : Faults) (find : RepositoryFind) (db : DBState) :
    Except StoreErr (List Repository) × DBState × List TxEvent :=
  match f.beginErr with
  | some m => (.error (FormatError (.driver m)), db, [])
  | none =>
    match findRepositoryList f.queryErr find db.table with
    | .error e => (.error e, db, [.begin, .rollback])
    | .ok list => (.ok list, db, [.begin, .rollback])

/-- Warning text of `FindRepository` on duplicate rows (line 80, with the
source's spelling). -/
def warnMultiple (n : Nat) : String :=
  "found mulitple repositories: " ++ toString n ++ ", expect 1"

/-- Modelled: Go renders the find value with the fmt `%v` verb into the
not-found message; the model renders the optional id. -/
def fmtRepositoryFind (f : RepositoryFind) : String :=
  match f.id with
  | none => "&\x7b<nil>\x7d"
  | some i => "&\x7b" ++ toString i ++ "\x7d"

/-- Service method `FindRepository` (lines 67-83): delegate to the list query;
zero results give the typed not-found error carrying the rendered predicate,
more than one result gives the first element plus a logged warning. -/
def FindRepository (f : Faults) (find : RepositoryFind) (db : DBState) :
    Except StoreErr Repository × List String × List TxEvent :=
  match f.beginErr with
  | some m => (.error (FormatError (.driver m)), [], [])
  | none =>
    match findRepositoryList f.queryErr find db.table with
    | .error e => (.error e, [], [.begin, .rollback])
    | .ok [] =>
      (.error (.bb .ENOTFOUND ("repository not found: " ++ fmtRepositoryFind find)), [],
       [.begin, .rollback])
    | .ok (x :: rest) =>
      if rest.isEmpty then (.ok x, [], [.begin, .rollback])
      else (.ok x, [warnMultiple (rest.length + 1)], [.begin, .rollback])

/-- Service method `PatchRepository` (lines 87-104): begin, run the row
operation, commit.  Note line 96 applies `FormatError` to the error returned
by `patchRepository`, which already classified its own driver errors. -/
def PatchRepository (f : Faults) (p : RepositoryPatch) (db : DBState) :
    Except StoreErr Repository × DBState × List TxEvent :=
  match f.beginErr with
  | some m => (.error (FormatError (.driver m)), db, [])
  | none =>
    match patchRepository f.queryErr p db.table with
    | (.error e, _) => (.error (FormatError e), db, [.begin, .rollback])
    | (.ok x, tbl') =>
      match f.commitErr with
      | some m => (.error (FormatError (.driver m)), db, [.begin, .commit, .rollback])
      | none => (.ok x, { db with table := tbl' }, [.begin, .commit, .rollback])

/-- Service method `DeleteRepository` (lines 108-125): begin, run the row
operation, commit.  Line 117 applies `FormatError` to the error returned by
`deleteRepository`, which already classified its own driver errors. -/
def DeleteRepository (f : Faults) (d : RepositoryDelete) (db : DBState) :
    Except StoreErr Unit × DBState × List TxEvent :=
  match f.beginErr with
  | some m => (.error (FormatError (.driver m)), db, [])
  | none =>
    match deleteRepository f.queryErr f.rowsAffectedErr d db.table with
    | (.error e, _) => (.error (FormatError e), db, [.begin, .rollback])
    | (.ok _, tbl') =>
      match f.commitErr with
      | some m => (.error (FormatError (.driver m)), db, [.begin, .commit, .rollback])
      | none => (.ok (), { db with table := tbl' }, [.begin, .commit, .rollback])

/-- Spec-level description of a patch (spec section 3): supplied fields
overwrite, omitted fields retain their stored value, the updater id is always
overwritten. -/
def specPatchApply (p : RepositoryPatch) (x : Repository) : Repository :=
  { x with
      updaterId := p.updaterId,
      baseDirectory := p.baseDirectory.getD x.baseDirectory,
      branchFilter := p.branchFilter.getD x.branchFilter }

/-- Spec-level find predicate: an absent ID matches every row. -/
def findMatches (f : RepositoryFind) (x : Repository) : Bool :=
  match f.id with
  | none => true
  | some i => decide (x.id = i)

/-- Whether an `Except` result is a success. -/
def exceptOk {α : Type} : Except StoreErr α → Bool
  | .ok _ => true
  | .error _ => false


@[simp] lemma decodeRepoRow_repoRow (x : Repository) : decodeRepoRow (repoRow x) = .ok x := rfl

@[simp] lemma getCol_repoRow_id (x : Repository) :
    getCol (repoRow x) "id" = some (Value.int x.id) := rfl

lemma scanRow_error (vs : List Value) (e : StoreErr) (h : scanRow vs = .error e) :
    e = .driver "sql: Scan error: type mismatch" := by
  unfold scanRow at h
  split at h
  · exact Except.noConfusion h
  · injection h with h1
    exact h1.symm

lemma decodeRepoRow_error (r : Row) (e : StoreErr) (h : decodeRepoRow r = .error e) :
    isNotFound e = false := by
  unfold decodeRepoRow at h
  split at h
  · injection h with h1
    subst h1
    rfl
  · have := scanRow_error _ _ h
    subst this
    rfl

lemma scanAll_error (rows : List Row) (e : StoreErr) (h : scanAll rows = .error e) :
    isNotFound e = false := by
  induction rows with
  | nil => simp [scanAll] at h
  | cons r rest ih =>
    rw [scanAll] at h
    cases hd : decodeRepoRow r with
    | error e' =>
      rw [hd] at h
      injection h with h1
      subst h1
      exact decodeRepoRow_error r e' hd
    | ok x =>
      rw [hd] at h
      cases hs : scanAll rest with
      | error e2 =>
        rw [hs] at h
        injection h with h1
        subst h1
        exact ih hs
      | ok xs =>
        rw [hs] at h
        exact Except.noConfusion h

lemma scanAll_map_repoRow (l : List Repository) : scanAll (l.map repoRow) = .ok l := by
  induction l with
  | nil => rfl
  | cons x xs ih => rw [List.map_cons, scanAll, decodeRepoRow_repoRow, ih]

lemma evalWhere_repoRow (f : RepositoryFind) (x : Repository) :
    evalWhere (repoRow x) (buildFindWhere f).1 (buildFindWhere f).2 = findMatches f x := by
  obtain ⟨fid⟩ := f
  cases fid with
  | none => rfl
  | some i =>
    by_cases h : x.id = i
    · simp [buildFindWhere, evalWhere, fragmentColumn, findMatches, h]
    · simp [buildFindWhere, evalWhere, fragmentColumn, findMatches, h]


lemma filter_eval_map (f : RepositoryFind) (l : List Repository) :
    (l.map repoRow).filter
        (fun r => evalWhere r (buildFindWhere f).1 (buildFindWhere f).2)
      = (l.filter (findMatches f)).map repoRow := by
  induction l with
  | nil => rfl
  | cons x xs ih =>
    simp only [List.map_cons, List.filter_cons, evalWhere_repoRow]
    cases hm : findMatches f x <;> simp [hm, ih]

lemma findList_char (f : RepositoryFind) (l : List Repository) :
    findRepositoryList none f (l.map repoRow) = .ok (l.filter (findMatches f)) := by
  unfold findRepositoryList
  simp only [filter_eval_map, scanAll_map_repoRow]

lemma applySet_patch (p : RepositoryPatch) (x : Repository) :
    applySet (repoRow x) (buildPatchSet p).1 (buildPatchSet p).2
      = repoRow (specPatchApply p x) := by
  obtain ⟨i, u, bd, bf⟩ := p
  cases bd <;> cases bf <;> rfl

lemma buildPatchSet_len (p : RepositoryPatch) :
    (buildPatchSet p).2.length = (buildPatchSet p).1.length := by
  obtain ⟨i, u, bd, bf⟩ := p
  cases bd <;> cases bf <;> rfl

lemma getD_append_singleton (l : List Value) (v d : Value) :
    (l ++ [v]).getD l.length d = v := by
  induction l with
  | nil => rfl
  | cons a t ih => simp [List.getD, ih]

lemma map_update_id (g : Repository → Repository) (set : List String)
    (setArgs : List Value) (i : Int) (l : List Repository)
    (happ : ∀ x, applySet (repoRow x) set setArgs = repoRow (g x)) :
    (l.map repoRow).map
        (fun r => if getCol r "id" = some (Value.int i) then applySet r set setArgs else r)
      = (l.map (fun x => if x.id = i then g x else x)).map repoRow := by
  induction l with
  | nil => rfl
  | cons x xs ih =>
    simp only [List.map_cons, ih]
    by_cases h : x.id = i
    · simp [h, happ]
    · simp [h]

lemma filter_id_map (i : Int) (l : List Repository) :
    (l.map repoRow).filter (fun r => decide (getCol r "id" = some (Value.int i)))
      = (l.filter (fun x => decide (x.id = i))).map repoRow := by
  induction l with
  | nil => rfl
  | cons x xs ih =>
    simp only [List.map_cons, List.filter_cons, getCol_repoRow_id]
    by_cases h : x.id = i
    · simp [h, ih]
    · simp [h, ih]

lemma sqlUpdateRepo_char (g : Repository → Repository) (set : List String)
    (setArgs : List Value) (i : Int) (l : List Repository)
    (hlen : setArgs.length = set.length)
    (happ : ∀ x, applySet (repoRow x) set setArgs = repoRow (g x)) :
    sqlUpdateRepo set (setArgs ++ [Value.int i]) (l.map repoRow)
      = ((l.map (fun x => if x.id = i then g x else x)).map repoRow,
         ((l.filter (fun x => decide (x.id = i))).map g).map repoRow) := by
  unfold sqlUpdateRepo
  have htake : (setArgs ++ [Value.int i]).take set.length = setArgs := by
    rw [← hlen]
    exact List.take_left setArgs [Value.int i]
  have hgetD : (setArgs ++ [Value.int i]).getD set.length (Value.int 0) = Value.int i := by
    rw [← hlen]
    exact getD_append_singleton setArgs (Value.int i) (Value.int 0)
  rw [htake, hgetD]
  simp only [map_update_id g set setArgs i l happ, filter_id_map i l, List.map_map]
  simp [Function.comp, happ]


lemma patchRepository_char (p : RepositoryPatch) (l : List Repository) :
    patchRepository none p (l.map repoRow)
      = (match l.filter (fun x => decide (x.id = p.id)) with
         | [] => .error (.bb .ENOTFOUND ("repository ID not found: " ++ toString p.id))
         | y :: _ => .ok (specPatchApply p y),
         (l.map (fun x => if x.id = p.id then specPatchApply p x else x)).map repoRow) := by
  unfold patchRepository
  dsimp only
  rw [sqlUpdateRepo_char (specPatchApply p) (buildPatchSet p).1 (buildPatchSet p).2 p.id l
        (buildPatchSet_len p) (applySet_patch p)]
  cases hf : l.filter (fun x => decide (x.id = p.id)) with
  | nil => simp [hf]
  | cons y ys => simp [hf]

lemma filter_not_id_map (i : Int) (l : List Repository) :
    (l.map repoRow).filter (fun r => !(decide (getCol r "id" = some (Value.int i))))
      = (l.filter (fun x => !(decide (x.id = i)))).map repoRow := by
  induction l with
  | nil => rfl
  | cons x xs ih =>
    simp only [List.map_cons, List.filter_cons, getCol_repoRow_id]
    by_cases h : x.id = i
    · simp [h, ih]
    · simp [h, ih]

lemma sqlDeleteRepo_char (i : Int) (l : List Repository) :
    sqlDeleteRepo i (l.map repoRow)
      = ((l.filter (fun x => !(decide (x.id = i)))).map repoRow,
         (l.filter (fun x => decide (x.id = i))).length) := by
  unfold sqlDeleteRepo
  rw [filter_not_id_map i l, filter_id_map i l]
  simp

lemma deleteRepository_char (d : RepositoryDelete) (l : List Repository) :
    deleteRepository none false d (l.map repoRow)
      = (if (l.filter (fun x => decide (x.id = d.id))).length = 0 then
           .error (.bb .ENOTFOUND ("repository ID not found: " ++ toString d.id))
         else .ok (),
         (l.filter (fun x => !(decide (x.id = d.id)))).map repoRow) := by
  unfold deleteRepository
  dsimp only
  rw [sqlDeleteRepo_char d.id l]
  by_cases h : (l.filter (fun x => decide (x.id = d.id))).length = 0
  · simp [h]
  · simp [h]


def sampleRepo : Repository :=
  ⟨7, 1, 100, 1, 100, 10, 5, "repo-a", "org/repo-a", "https://example.com/org/repo-a",
   "/", "main", "123", "wh1"⟩

def sampleRepoDup : Repository := { sampleRepo with name := "repo-b" }

def sampleCreate : RepositoryCreate :=
  ⟨1, 10, 5, "repo-a", "org/repo-a", "https://example.com/org/repo-a", "/", "main",
   "123", "wh1"⟩

def samplePatch : RepositoryPatch := ⟨7, 2, none, some "release"⟩

def samplePatchMiss : RepositoryPatch := ⟨99, 2, none, some "release"⟩

def sampleDelete : RepositoryDelete := ⟨7⟩

def sampleFind : RepositoryFind := ⟨some 7⟩

def sampleDB : DBState := ⟨[repoRow sampleRepo], 8, 200⟩

def sampleDupDB : DBState := ⟨[repoRow sampleRepo, repoRow sampleRepoDup], 8, 200⟩

/-- Claim C1: on every patch request the SET clause always starts with the
updater-id assignment bound to the caller-supplied updater id; the optional
base-directory and branch-filter fields are appended to the SET clause and
the bound-parameter list exactly when non-nil, in that fixed order; and
applying the built SET clause to a stored row overwrites exactly the
supplied fields, every other field of the resulting entity retaining its
stored value. -/
theorem c1_patch_set_clause (p : RepositoryPatch) (x : Repository) :
    (buildPatchSet p).1
      = "updater_id = ?"
          :: ((match p.baseDirectory with
               | some _ => ["base_directory = ?"]
               | none => [])
              ++ (match p.branchFilter with
                  | some _ => ["branch_filter = ?"]
                  | none => []))
  ∧ (buildPatchSet p).2
      = Value.int p.updaterId
          :: ((match p.baseDirectory with
               | some v => [Value.str v]
               | none => [])
              ++ (match p.branchFilter with
                  | some v => [Value.str v]
                  | none => []))
  ∧ applySet (repoRow x) (buildPatchSet p).1 (buildPatchSet p).2
      = repoRow (specPatchApply p x)
  ∧ (specPatchApply p x).updaterId = p.updaterId
  ∧ (p.baseDirectory = none → (specPatchApply p x).baseDirectory = x.baseDirectory)
  ∧ (∀ v, p.baseDirectory = some v → (specPatchApply p x).baseDirectory = v)
  ∧ (p.branchFilter = none → (specPatchApply p x).branchFilter = x.branchFilter)
  ∧ (∀ v, p.branchFilter = some v → (specPatchApply p x).branchFilter = v)
  ∧ (specPatchApply p x).id = x.id
  ∧ (specPatchApply p x).creatorId = x.creatorId
  ∧ (specPatchApply p x).createdTs = x.createdTs
  ∧ (specPatchApply p x).updatedTs = x.updatedTs
  ∧ (specPatchApply p x).vcsId = x.vcsId
  ∧ (specPatchApply p x).projectId = x.projectId
  ∧ (specPatchApply p x).name = x.name
  ∧ (specPatchApply p x).fullPath = x.fullPath
  ∧ (specPatchApply p x).webURL = x.webURL
  ∧ (specPatchApply p x).externalId = x.externalId
  ∧ (specPatchApply p x).webhookId = x.webhookId := by
  obtain ⟨i, u, bd, bf⟩ := p
  cases bd <;> cases bf <;>
    refine ⟨rfl, rfl, rfl, rfl, ?_, ?_, ?_, ?_, rfl, rfl, rfl, rfl, rfl, rfl, rfl, rfl,
            rfl, rfl, rfl⟩ <;>
    simp [specPatchApply]

/-- Witness for C1 at a concrete patch that omits the base directory and
supplies the branch filter. -/
theorem c1_witness :
    (specPatchApply samplePatch sampleRepo).baseDirectory = sampleRepo.baseDirectory
    ∧ (specPatchApply samplePatch sampleRepo).branchFilter = "release" :=
  ⟨(c1_patch_set_clause samplePatch sampleRepo).2.2.2.2.1 rfl,
   (c1_patch_set_clause samplePatch sampleRepo).2.2.2.2.2.2.2.1 "release" rfl⟩

/-- Claim C2: FindRepository delegates to the list query; an empty result
yields the typed not-found error carrying the rendered predicate, a single
result is returned as is, and more than one result returns the first element
in result order with only a non-fatal logged warning, never an error. -/
theorem c2_find_one_policy (find : RepositoryFind) (l : List Repository) (db : DBState)
    (htbl : db.table = l.map repoRow) :
    (l.filter (findMatches find) = [] →
       FindRepository noFaults find db
         = (.error (.bb .ENOTFOUND ("repository not found: " ++ fmtRepositoryFind find)),
            [], [TxEvent.begin, TxEvent.rollback]))
  ∧ (∀ y, l.filter (findMatches find) = [y] →
       FindRepository noFaults find db = (.ok y, [], [TxEvent.begin, TxEvent.rollback]))
  ∧ (∀ y z zs, l.filter (findMatches find) = y :: z :: zs →
       FindRepository noFaults find db
         = (.ok y, [warnMultiple (zs.length + 2)], [TxEvent.begin, TxEvent.rollback])) := by
  have hl : findRepositoryList none find db.table = .ok (l.filter (findMatches find)) := by
    rw [htbl]
    exact findList_char find l
  refine ⟨?_, ?_, ?_⟩
  · intro h
    simp [FindRepository, noFaults, hl, h]
  · intro y h
    simp [FindRepository, noFaults, hl, h]
  · intro y z zs h
    simp [FindRepository, noFaults, hl, h]

/-- Witness for C2 on a table with two rows of the same id: the first is
returned together with the duplicate warning. -/
theorem c2_witness :
    FindRepository noFaults sampleFind sampleDupDB
      = (.ok sampleRepo, [warnMultiple 2], [TxEvent.begin, TxEvent.rollback]) := by
  have h := (c2_find_one_policy sampleFind [sampleRepo, sampleRepoDup] sampleDupDB
    rfl).2.2 sampleRepo sampleRepoDup [] (by decide)
  simpa using h

/-- Claim C3: a patch whose id matches no row makes the UPDATE-RETURNING
yield zero rows, so patchRepository returns the ENOTFOUND error carrying the
id and leaves the table unchanged; when at least one row is returned, the
first one is decoded and returned as the new entity state; the table row
count is preserved in every case. -/
theorem c3_patch_returning (p : RepositoryPatch) (l : List Repository) :
    ((∀ x ∈ l, x.id ≠ p.id) →
       patchRepository none p (l.map repoRow)
         = (.error (.bb .ENOTFOUND ("repository ID not found: " ++ toString p.id)),
            l.map repoRow))
  ∧ (∀ y ys, l.filter (fun x => decide (x.id = p.id)) = y :: ys →
       (patchRepository none p (l.map repoRow)).1 = .ok (specPatchApply p y))
  ∧ ((patchRepository none p (l.map repoRow)).2).length = l.length := by
  refine ⟨?_, ?_, ?_⟩
  · intro h
    have hf : l.filter (fun x => decide (x.id = p.id)) = [] := by
      simp only [List.filter_eq_nil_iff, decide_eq_true_eq]
      exact h
    have hmap : l.map (fun x => if x.id = p.id then specPatchApply p x else x) = l := by
      calc l.map (fun x => if x.id = p.id then specPatchApply p x else x)
          = l.map id := List.map_congr_left (fun a ha => if_neg (h a ha))
        _ = l := List.map_id l
    rw [patchRepository_char, hf, hmap]
  · intro y ys hf
    rw [patchRepository_char, hf]
  · rw [patchRepository_char]
    simp

/-- Witness for C3 at a patch whose id (99) matches no stored row. -/
theorem c3_witness :
    patchRepository none samplePatchMiss ([sampleRepo].map repoRow)
      = (.error (.bb .ENOTFOUND ("repository ID not found: " ++ toString samplePatchMiss.id)),
         [sampleRepo].map repoRow) :=
  (c3_patch_returning samplePatchMiss [sampleRepo]).1 (by decide)

/-- Claim C4: a successful create inserts exactly one row whose creator id
and updater id are both the caller-supplied creator value, and the returned
entity is decoded from the RETURNING projection of that same inserted row,
so every returned field, including the server-assigned id and timestamps,
equals the persisted value. -/
theorem c4_create_insert_returning (c : RepositoryCreate) (db : DBState) :
    createRepository none c db
      = (.ok ⟨db.nextId, c.creatorId, db.now, c.creatorId, db.now, c.vcsId, c.projectId,
              c.name, c.fullPath, c.webURL, c.baseDirectory, c.branchFilter, c.externalId,
              c.webhookId⟩,
         { db with
             table := db.table ++ [(sqlInsertRepo insertColumns (createValuesArgs c) db).1],
             nextId := db.nextId + 1 })
  ∧ decodeRepoRow (sqlInsertRepo insertColumns (createValuesArgs c) db).1
      = .ok ⟨db.nextId, c.creatorId, db.now, c.creatorId, db.now, c.vcsId, c.projectId,
             c.name, c.fullPath, c.webURL, c.baseDirectory, c.branchFilter, c.externalId,
             c.webhookId⟩
  ∧ ((createRepository none c db).2.table).length = db.table.length + 1 := by
  refine ⟨rfl, rfl, ?_⟩
  simp [createRepository, sqlInsertRepo]

/-- Claim C5: deleteRepository inspects the affected-row count of the scoped
DELETE by id: zero affected rows yield the ENOTFOUND error carrying the id,
and one or more affected rows yield success, with no distinction between one
and many. -/
theorem c5_delete_rows_affected (d : RepositoryDelete) (l : List Repository) :
    (l.filter (fun x => decide (x.id = d.id)) = [] →
       deleteRepository none false d (l.map repoRow)
         = (.error (.bb .ENOTFOUND ("repository ID not found: " ++ toString d.id)),
            l.map repoRow))
  ∧ (∀ y ys, l.filter (fun x => decide (x.id = d.id)) = y :: ys →
       deleteRepository none false d (l.map repoRow)
         = (.ok (), (l.filter (fun x => !(decide (x.id = d.id)))).map repoRow)) := by
  refine ⟨?_, ?_⟩
  · intro h
    rw [deleteRepository_char]
    have hl : (l.filter (fun x => decide (x.id = d.id))).length = 0 := by
      rw [h]
      rfl
    have hkeep : l.filter (fun x => !(decide (x.id = d.id))) = l := by
      rw [List.filter_eq_self]
      intro a ha
      have ha' := List.filter_eq_nil_iff.mp h a ha
      simpa using ha'
    rw [hl, hkeep]
    simp
  · intro y ys h
    rw [deleteRepository_char]
    simp [h]

/-- Witness for C5 deleting the one stored row with a matching id. -/
theorem c5_witness :
    deleteRepository none false sampleDelete ([sampleRepo].map repoRow) = (.ok (), []) := by
  have h := (c5_delete_rows_affected sampleDelete [sampleRepo]).2 sampleRepo [] (by decide)
  simpa using h

/-- Claim C6: the find WHERE clause is the always-true fragment followed by
one fragment and one bound parameter per non-nil predicate field;
findRepositoryList returns exactly the matching rows, an empty list with
success when nothing matches, and an error only on execution failure, never
a not-found error. -/
theorem c6_find_list (find : RepositoryFind) (l : List Repository) (tbl : List Row)
    (qe : Option String) :
    buildFindWhere find
      = ("1 = 1" :: (match find.id with | some _ => ["id = ?"] | none => []),
         (match find.id with | some i => [Value.int i] | none => []))
  ∧ findRepositoryList none find (l.map repoRow) = .ok (l.filter (findMatches find))
  ∧ (l.filter (findMatches find) = [] → findRepositoryList none find (l.map repoRow) = .ok [])
  ∧ (∀ e, findRepositoryList qe find tbl = .error e → isNotFound e = false)
  ∧ (∀ m, findRepositoryList (some m) find tbl = .error (FormatError (.driver m))) := by
  refine ⟨?_, findList_char find l, ?_, ?_, fun m => rfl⟩
  · obtain ⟨fid⟩ := find
    cases fid <;> rfl
  · intro h
    rw [findList_char, h]
  · intro e he
    cases qe with
    | some m =>
      rw [show findRepositoryList (some m) find tbl = .error (FormatError (.driver m))
            from rfl] at he
      injection he with h1
      subst h1
      rfl
    | none =>
      have he' : scanAll (tbl.filter
          (fun r => evalWhere r (buildFindWhere find).1 (buildFindWhere find).2)) = .error e := he
      exact scanAll_error _ e he'

/-- Witness for C6: an injected query error is classified and is not a
not-found error. -/
theorem c6_witness : isNotFound (FormatError (.driver "boom")) = false :=
  (c6_find_list ⟨none⟩ [] [] (some "boom")).2.2.2.1 (FormatError (.driver "boom")) rfl


/-- Claim C7 (amended): storage errors are classified exactly once in
Create, FindList and FindOne and on transaction begin and commit failures,
but storage errors surfacing from the patch and delete row operations are
classified twice, once inside the helper and once more at the service
boundary; no error is logged and swallowed, the only logged-and-continued
path being the multiple-rows warning of FindOne, which returns success. -/
theorem c7_classification_amended (m : String) (c : RepositoryCreate)
    (find : RepositoryFind) (p : RepositoryPatch) (d : RepositoryDelete) (db : DBState) :
    (CreateRepository { noFaults with queryErr := some m } c db).1
        = .error (FormatError (.driver m))
  ∧ (FindRepositoryList { noFaults with queryErr := some m } find db).1
        = .error (FormatError (.driver m))
  ∧ (FindRepository { noFaults with queryErr := some m } find db).1
        = .error (FormatError (.driver m))
  ∧ (PatchRepository { noFaults with queryErr := some m } p db).1
        = .error (FormatError (FormatError (.driver m)))
  ∧ (DeleteRepository { noFaults with queryErr := some m } d db).1
        = .error (FormatError (FormatError (.driver m)))
  ∧ (CreateRepository { noFaults with beginErr := some m } c db).1
        = .error (FormatError (.driver m))
  ∧ (CreateRepository { noFaults with commitErr := some m } c db).1
        = .error (FormatError (.driver m))
  ∧ classifyCount (FormatError (.driver m)) = 1
  ∧ classifyCount (FormatError (FormatError (.driver m))) = 2
  ∧ (FindRepository noFaults sampleFind sampleDupDB).2.1 = [warnMultiple 2]
  ∧ exceptOk (FindRepository noFaults sampleFind sampleDupDB).1 = true :=
  ⟨rfl, rfl, rfl, rfl, rfl, rfl, rfl, rfl, rfl, rfl, rfl⟩

/-- Claim C7 as stated is false: a query error inside PatchRepository passes
through the classification function twice, not exactly once, before being
returned to the caller. -/
theorem c7_counterexample :
    (PatchRepository { noFaults with queryErr := some "disk I/O error" } samplePatch
        sampleDB).1
      = .error (FormatError (FormatError (.driver "disk I/O error")))
    ∧ classifyCount (FormatError (FormatError (.driver "disk I/O error"))) ≠ 1 :=
  ⟨rfl, by decide⟩

/-- Claim C9: when the INSERT-RETURNING row set is empty, create ignores the
boolean result of Next, the subsequent Scan fails, and the result is a
classified driver error rather than a panic or a zero-valued entity with
success. -/
theorem c9_create_zero_rows :
    createRepositoryScan []
      = .error (FormatError (.driver "sql: Scan called without calling Next"))
    ∧ classifyCount (FormatError (.driver "sql: Scan called without calling Next")) = 1
    ∧ exceptOk (createRepositoryScan ([] : List Row)) = false :=
  ⟨rfl, rfl, rfl⟩

/-- Claim C10: when the driver fails to report an affected-row count, the
error is discarded and the count treated as zero, so deleteRepository
returns the ENOTFOUND error even though the DELETE statement itself
succeeded and removed at least one row. -/
theorem c10_delete_rowsaffected_discarded (d : RepositoryDelete) (l : List Repository)
    (y : Repository) (hy : y ∈ l) (hid : y.id = d.id) :
    deleteRepository none true d (l.map repoRow)
      = (.error (.bb .ENOTFOUND ("repository ID not found: " ++ toString d.id)),
         (l.filter (fun x => !(decide (x.id = d.id)))).map repoRow)
  ∧ 1 ≤ (sqlDeleteRepo d.id (l.map repoRow)).2 := by
  constructor
  · unfold deleteRepository
    dsimp only
    rw [sqlDeleteRepo_char d.id l]
    simp
  · rw [sqlDeleteRepo_char d.id l]
    have hmem : y ∈ l.filter (fun x => decide (x.id = d.id)) :=
      List.mem_filter.mpr ⟨hy, by simp [hid]⟩
    exact List.length_pos.mpr (List.ne_nil_of_mem hmem)

/-- Witness for C10 on a one-row table whose row matches the deleted id. -/
theorem c10_witness :
    deleteRepository none true sampleDelete ([sampleRepo].map repoRow)
      = (.error (.bb .ENOTFOUND ("repository ID not found: " ++ toString sampleDelete.id)), [])
    ∧ 1 ≤ (sqlDeleteRepo sampleDelete.id ([sampleRepo].map repoRow)).2 := by
  have h := c10_delete_rowsaffected_discarded sampleDelete [sampleRepo] sampleRepo
    (by decide) (by decide)
  simpa using h


/-- Claim C8: for every operation and fault assignment, a failed begin opens
no transaction, an opened transaction always ends in the deferred rollback,
commit is attempted only when the row operation succeeded, an error before
commit produces exactly begin followed by rollback, and a successful row
operation produces begin, commit, rollback, the trailing rollback being the
deferred no-op cleanup after commit. -/
theorem c8_tx_discipline (f : Faults) (c : RepositoryCreate) (find : RepositoryFind)
    (p : RepositoryPatch) (d : RepositoryDelete) (db : DBState) :
    (∀ m, f.beginErr = some m →
       (CreateRepository f c db).2.2 = []
       ∧ (FindRepositoryList f find db).2.2 = []
       ∧ (FindRepository f find db).2.2 = []
       ∧ (PatchRepository f p db).2.2 = []
       ∧ (DeleteRepository f d db).2.2 = [])
  ∧ (f.beginErr = none →
       TxEvent.rollback ∈ (CreateRepository f c db).2.2
       ∧ (FindRepositoryList f find db).2.2 = [TxEvent.begin, TxEvent.rollback]
       ∧ (FindRepository f find db).2.2 = [TxEvent.begin, TxEvent.rollback]
       ∧ TxEvent.rollback ∈ (PatchRepository f p db).2.2
       ∧ TxEvent.rollback ∈ (DeleteRepository f d db).2.2)
  ∧ (TxEvent.commit ∈ (CreateRepository f c db).2.2 →
       exceptOk (createRepository f.queryErr c db).1 = true)
  ∧ (TxEvent.commit ∈ (PatchRepository f p db).2.2 →
       exceptOk (patchRepository f.queryErr p db.table).1 = true)
  ∧ (TxEvent.commit ∈ (DeleteRepository f d db).2.2 →
       exceptOk (deleteRepository f.queryErr f.rowsAffectedErr d db.table).1 = true)
  ∧ (f.beginErr = none → exceptOk (createRepository f.queryErr c db).1 = false →
       (CreateRepository f c db).2.2 = [TxEvent.begin, TxEvent.rollback])
  ∧ (f.beginErr = none → exceptOk (patchRepository f.queryErr p db.table).1 = false →
       (PatchRepository f p db).2.2 = [TxEvent.begin, TxEvent.rollback])
  ∧ (f.beginErr = none →
       exceptOk (deleteRepository f.queryErr f.rowsAffectedErr d db.table).1 = false →
       (DeleteRepository f d db).2.2 = [TxEvent.begin, TxEvent.rollback])
  ∧ (f.beginErr = none → exceptOk (createRepository f.queryErr c db).1 = true →
       (CreateRepository f c db).2.2 = [TxEvent.begin, TxEvent.commit, TxEvent.rollback])
  ∧ (f.beginErr = none → exceptOk (patchRepository f.queryErr p db.table).1 = true →
       (PatchRepository f p db).2.2 = [TxEvent.begin, TxEvent.commit, TxEvent.rollback])
  ∧ (f.beginErr = none →
       exceptOk (deleteRepository f.queryErr f.rowsAffectedErr d db.table).1 = true →
       (DeleteRepository f d db).2.2 = [TxEvent.begin, TxEvent.commit, TxEvent.rollback]) := by
  obtain ⟨be, qe, ce, rae⟩ := f
  cases be with
  | some m =>
    refine ⟨fun m' h => ⟨rfl, rfl, rfl, rfl, rfl⟩, ?_, ?_, ?_, ?_, ?_, ?_, ?_, ?_, ?_, ?_⟩
    · intro h
      exact Option.noConfusion h
    · intro hmem
      exact absurd hmem (List.not_mem_nil _)
    · intro hmem
      exact absurd hmem (List.not_mem_nil _)
    · intro hmem
      exact absurd hmem (List.not_mem_nil _)
    · intro h
      exact Option.noConfusion h
    · intro h
      exact Option.noConfusion h
    · intro h
      exact Option.noConfusion h
    · intro h
      exact Option.noConfusion h
    · intro h
      exact Option.noConfusion h
    · intro h
      exact Option.noConfusion h
  | none =>
    have hCreEv : (CreateRepository ⟨none, qe, ce, rae⟩ c db).2.2
        = (if exceptOk (createRepository qe c db).1 = true then
             [TxEvent.begin, TxEvent.commit, TxEvent.rollback]
           else [TxEvent.begin, TxEvent.rollback]) := by
      rcases hc : createRepository qe c db with ⟨cr, cdb⟩
      cases cr with
      | ok x => cases ce <;> simp [CreateRepository, hc, exceptOk]
      | error e => simp [CreateRepository, hc, exceptOk]
    have hPatEv : (PatchRepository ⟨none, qe, ce, rae⟩ p db).2.2
        = (if exceptOk (patchRepository qe p db.table).1 = true then
             [TxEvent.begin, TxEvent.commit, TxEvent.rollback]
           else [TxEvent.begin, TxEvent.rollback]) := by
      rcases hc : patchRepository qe p db.table with ⟨cr, tbl'⟩
      cases cr with
      | ok x => cases ce <;> simp [PatchRepository, hc, exceptOk]
      | error e => simp [PatchRepository, hc, exceptOk]
    have hDelEv : (DeleteRepository ⟨none, qe, ce, rae⟩ d db).2.2
        = (if exceptOk (deleteRepository qe rae d db.table).1 = true then
             [TxEvent.begin, TxEvent.commit, TxEvent.rollback]
           else [TxEvent.begin, TxEvent.rollback]) := by
      rcases hc : deleteRepository qe rae d db.table with ⟨cr, tbl'⟩
      cases cr with
      | ok x => cases ce <;> simp [DeleteRepository, hc, exceptOk]
      | error e => simp [DeleteRepository, hc, exceptOk]
    have hFLEv : (FindRepositoryList ⟨none, qe, ce, rae⟩ find db).2.2
        = [TxEvent.begin, TxEvent.rollback] := by
      cases hc : findRepositoryList qe find db.table with
      | ok xs => simp [FindRepositoryList, hc]
      | error e => simp [FindRepositoryList, hc]
    have hFOEv : (FindRepository ⟨none, qe, ce, rae⟩ find db).2.2
        = [TxEvent.begin, TxEvent.rollback] := by
      cases hc : findRepositoryList qe find db.table with
      | ok xs =>
        cases xs with
        | nil => simp [FindRepository, hc]
        | cons x rest => cases rest <;> simp [FindRepository, hc]
      | error e => simp [FindRepository, hc]
    refine ⟨fun m' h => Option.noConfusion h, ?_, ?_, ?_, ?_, ?_, ?_, ?_, ?_, ?_, ?_⟩
    · intro _
      refine ⟨?_, hFLEv, hFOEv, ?_, ?_⟩
      · rw [hCreEv]
        by_cases hok : exceptOk (createRepository qe c db).1 = true <;> simp [hok]
      · rw [hPatEv]
        by_cases hok : exceptOk (patchRepository qe p db.table).1 = true <;> simp [hok]
      · rw [hDelEv]
        by_cases hok : exceptOk (deleteRepository qe rae d db.table).1 = true <;> simp [hok]
    · rw [hCreEv]
      by_cases hok : exceptOk (createRepository qe c db).1 = true <;> simp [hok]
    · rw [hPatEv]
      by_cases hok : exceptOk (patchRepository qe p db.table).1 = true <;> simp [hok]
    · rw [hDelEv]
      by_cases hok : exceptOk (deleteRepository qe rae d db.table).1 = true <;> simp [hok]
    · intro _ hfail
      rw [hCreEv, hfail]
      simp
    · intro _ hfail
      rw [hPatEv, hfail]
      simp
    · intro _ hfail
      rw [hDelEv, hfail]
      simp
    · intro _ hok
      rw [hCreEv, hok]
      simp
    · intro _ hok
      rw [hPatEv, hok]
      simp
    · intro _ hok
      rw [hDelEv, hok]
      simp

/-- Witness for C8 under a fault-free driver on a concrete database. -/
theorem c8_witness :
    TxEvent.rollback ∈ (CreateRepository noFaults sampleCreate sampleDB).2.2
    ∧ (FindRepositoryList noFaults sampleFind sampleDB).2.2
        = [TxEvent.begin, TxEvent.rollback]
    ∧ (FindRepository noFaults sampleFind sampleDB).2.2
        = [TxEvent.begin, TxEvent.rollback]
    ∧ TxEvent.rollback ∈ (PatchRepository noFaults samplePatch sampleDB).2.2
    ∧ TxEvent.rollback ∈ (DeleteRepository noFaults sampleDelete sampleDB).2.2 :=
  (c8_tx_discipline noFaults sampleCreate sampleFind samplePatch sampleDelete
    sampleDB).2.1 rfl

end Bytebase
